import Mathlib

/-!
Verification development for the pubsjs client library (`src/models.ts`,
`src/pubs.ts`, `src/events.ts`).

The definitions below are a shallow embedding of the connection lifecycle
and message-correlation engine of the `Pubs` class: the mutable instance
fields become a `PubsState` record, the module-level `websocketSequence`
counter is threaded explicitly (it is *not* part of the instance state,
mirroring the source where it is a module-level `let`), asynchronous
callbacks become pure state-transition functions returning the performed
effects, and timers become explicit fields/parameters.  JS numbers are
modelled as `ℤ`/`ℚ` (`Math.trunc`/`Math.floor` made explicit), JS `Map`
as an association list with `mapGet`/`mapSet`/`mapDelete`.
-/

/-- `PubsInit.options` (`pubs.ts` lines 110-119).  `reconnectFactor` is the
only non-integral field and is modelled as a rational. -/
structure PubsOptions where
  connectTimeout : ℕ := 5000
  heartbeatInterval : ℕ := 5000
  maxReconnectInterval : ℕ := 30000
  reconnectEnabled : Bool := true
  reconnectFactor : ℚ := 3 / 2
  reconnectInterval : ℕ := 1000
  reconnectSpreader : ℕ := 500
  streamAckTimeout : ℕ := 20000
deriving DecidableEq, Repr

/-- The default options object (`PubsInit.options` before any `PubsInit.init`). -/
def defaultPubsOptions : PubsOptions := {}

/-- `IPubsDataError` / `IErrorWithCodeAndMessage`: an error code plus message. -/
structure PubsError where
  code : String
  msg : String := ""
deriving DecidableEq, Repr

/-- The mutable fields of a `Pubs` instance (`pubs.ts` lines 137-174).
Sockets and connection gates are identified by numeric ids; `socket = none`
models `this.socket === undefined`, `gate = none` models the constructor's
`this.gate = {}` (a gate record whose `promise` field is absent).
`reconnectorTimer` models the `this.reconnector` timer handle: `some d`
is a live retry timer with computed delay `d`, `none` is no live timer.
`replyHandlers` maps a correlation id to the registered reply timeout. -/
structure PubsState where
  connecting : Bool := false
  connected : Bool := false
  reconnecting : Bool := false
  socket : Option ℕ := none
  closing : Bool := false
  reconnectorTimer : Option ℤ := none
  reconnectAttempts : ℕ := 0
  replyHandlers : List (ℕ × ℤ) := []
  gate : Option ℕ := none
deriving DecidableEq, Repr

/-- The state produced by the `Pubs` constructor (`pubs.ts` lines 182-187). -/
def initialPubsState : PubsState := {}

/-- `Map.prototype.get` on the reply-handler table. -/
def mapGet (m : List (ℕ × ℤ)) (k : ℕ) : Option ℤ :=
  match m with
  | [] => none
  | (k2, v) :: rest => if k2 = k then some v else mapGet rest k

/-- `Map.prototype.set` on the reply-handler table (replace or insert). -/
def mapSet (m : List (ℕ × ℤ)) (k : ℕ) (v : ℤ) : List (ℕ × ℤ) :=
  match m with
  | [] => [(k, v)]
  | (k2, v2) :: rest => if k2 = k then (k, v) :: rest else (k2, v2) :: mapSet rest k v

/-- `Map.prototype.delete` on the reply-handler table. -/
def mapDelete (m : List (ℕ × ℤ)) (k : ℕ) : List (ℕ × ℤ) :=
  match m with
  | [] => []
  | (k2, v2) :: rest => if k2 = k then mapDelete rest k else (k2, v2) :: mapDelete rest k

/-- Events dispatched through `dispatchEvent` (`events.ts`):
`PubsStateChangedEvent` snapshots the three state booleans,
`PubsErrorEvent` carries a code and message.  (`PubsStreamEvent` carries
opaque payload data and is irrelevant to the claims.) -/
inductive PubsEvent
  | stateChanged (connecting connected reconnecting : Bool)
  | errorEvent (code : String) (msg : String)
deriving DecidableEq, Repr

/-- Whether an event is a `PubsErrorEvent` notification. -/
def PubsEvent.isError : PubsEvent → Bool
  | .errorEvent _ _ => true
  | _ => false

/-- `dispatchStateChangedEvent` builds a `PubsStateChangedEvent` from the
current state (`events.ts` lines 28-42). -/
def stateChangedEvent (s : PubsState) : PubsEvent :=
  .stateChanged s.connecting s.connected s.reconnecting

/-- JS `Math.trunc` on a rational: rounds toward zero. -/
def jsTrunc (q : ℚ) : ℤ :=
  if q < 0 then -⌊-q⌋ else ⌊q⌋

/-- The retry delay computed by the `reconnector` closure in `connect()`
(`pubs.ts` lines 198-215):

```
let reconnectTimeout = PubsInit.options.reconnectInterval;
if (!fast) {
  reconnectTimeout *= Math.trunc(Math.pow(PubsInit.options.reconnectFactor, this.reconnectAttempts));
  if (reconnectTimeout > PubsInit.options.maxReconnectInterval) {
    reconnectTimeout = PubsInit.options.maxReconnectInterval;
  }
  reconnectTimeout += Math.floor(Math.random() * PubsInit.options.reconnectSpreader);
}
```

`jitter` stands for the value of `Math.floor(Math.random() * reconnectSpreader)`,
an integer in `[0, reconnectSpreader)`. -/
def reconnectDelay (o : PubsOptions) (attempts : ℕ) (jitter : ℕ) (fast : Bool) : ℤ :=
  let rt : ℤ := (o.reconnectInterval : ℤ)
  if fast then rt
  else
    let rt := rt * jsTrunc (o.reconnectFactor ^ attempts)
    let rt := if rt > (o.maxReconnectInterval : ℤ) then (o.maxReconnectInterval : ℤ) else rt
    rt + (jitter : ℤ)

/-- Modelled from the spec: the spec's stated non-fast delay formula,
`base_interval × factor^attempts, capped at max_interval, plus jitter`
(no truncation of the power).  Kept separate so it can be compared with
`reconnectDelay`, which is translated from the source. -/
def specReconnectDelay (o : PubsOptions) (attempts : ℕ) (jitter : ℕ) : ℚ :=
  min ((o.reconnectInterval : ℚ) * o.reconnectFactor ^ attempts) (o.maxReconnectInterval : ℚ)
    + (jitter : ℚ)

/-- One invocation of the `reconnector` closure (`pubs.ts` lines 198-215):
it first clears the pending retry timer, returns if `this.reconnecting`
is false (the check is made here, at scheduling time), otherwise computes
the delay, arms the timer and increments `reconnectAttempts`. -/
def reconnectorStep (o : PubsOptions) (fast : Bool) (jitter : ℕ) (s : PubsState) : PubsState :=
  let s := { s with reconnectorTimer := none }
  if s.reconnecting = false then s
  else
    { s with
      reconnectorTimer := some (reconnectDelay o s.reconnectAttempts jitter fast),
      reconnectAttempts := s.reconnectAttempts + 1 }

/-- The synchronous prefix of `connect()` (`pubs.ts` lines 197, 217-222):
`clearTimeout(this.reconnector)`, then
`this.reconnecting = (PubsInit.options.reconnectEnabled || true);`
`this.connecting = true;` `this.dispatchStateChangedEvent();` and the
creation of a fresh gate (`this.gate = {}` with a new promise), identified
by `gid`.  Returns the new state and the dispatched events. -/
def connectStart (o : PubsOptions) (gid : ℕ) (s : PubsState) : PubsState × List PubsEvent :=
  let s := { s with
    reconnectorTimer := none,
    reconnecting := (o.reconnectEnabled || true),
    connecting := true,
    gate := some gid }
  (s, [stateChangedEvent s])

/-- `IStreamWebsocketConnectResponse`: the handshake result.  A missing
`streamUrl` is modelled by the empty string (`if (!connectResponse.streamUrl)`
treats both `undefined` and `''` as absent). -/
structure ConnectResponse where
  streamUrl : String := ""
  error : Option PubsError := none
deriving DecidableEq, Repr

/-- Control-flow outcome of processing a handshake response inside
`connect()`. -/
inductive ConnectResultAction
  | reconnectorCalled
  | rejected (e : PubsError)
  | proceedToSocket
deriving DecidableEq, Repr

/-- Processing of the handshake response in `connect()` (`pubs.ts` lines
242-266): when `streamUrl` is absent, clear `connecting`, dispatch a
state-changed event and then branch on `this.reconnecting`; a
`http_error_403` error while reconnecting additionally clears
`reconnecting`, dispatches a state-changed event and an error event; the
non-reconnecting branch rejects with the response error (or
`unknown_error`).  Returns the new state, the dispatched events and the
control-flow outcome. -/
def handleConnectResponse (s : PubsState) (r : ConnectResponse) :
    PubsState × List PubsEvent × ConnectResultAction :=
  if r.streamUrl = "" then
    let s1 := { s with connecting := false }
    let ev1 := [stateChangedEvent s1]
    if s1.reconnecting then
      match r.error with
      | some e =>
        if e.code = "http_error_403" then
          let s2 := { s1 with reconnecting := false }
          (s2, ev1 ++ [stateChangedEvent s2, .errorEvent e.code e.msg], .reconnectorCalled)
        else (s1, ev1, .reconnectorCalled)
      | none => (s1, ev1, .reconnectorCalled)
    else
      match r.error with
      | some e => (s1, ev1, .rejected e)
      | none => (s1, ev1, .rejected { code := "unknown_error", msg := "" })
  else (s, [], .proceedToSocket)

/-- The retry timer callback armed by `reconnector`
(`this.reconnector = window.setTimeout(() => { this.connect(); }, reconnectTimeout)`,
`pubs.ts` lines 211-213): when it fires it invokes `this.connect()`
unconditionally — there is no `reconnecting` check at fire time.  The
returned boolean records that a connection attempt was performed. -/
def reconnectorTimerFire (o : PubsOptions) (gid : ℕ) (s : PubsState) : PubsState × Bool :=
  ((connectStart o gid s).1, true)

/-- Result classification of one `sendStreamWebSocketPayload` call
(`pubs.ts` lines 307-334): the promise rejects with `no_connection`, or
rejects with the socket send exception, or a pending-reply record is
registered (the promise then settles via ack or reply timeout), or the
promise is resolved immediately (`setTimeout(resolve, 0)`).  The payload
`corr` is the correlation id written into `payload.state`. -/
inductive SendOutcome
  | noConnection
  | sendException
  | registeredPending (corr : ℕ)
  | immediateResolve (corr : ℕ)
deriving DecidableEq, Repr

/-- The correlation id assigned by a send, when one was assigned. -/
def SendOutcome.assignedId : SendOutcome → Option ℕ
  | .registeredPending k => some k
  | .immediateResolve k => some k
  | _ => none

/-- `Pubs.sendStreamWebSocketPayload` (`pubs.ts` lines 307-334).  `seq` is
the module-level `websocketSequence` counter (threaded explicitly because
it is *not* an instance field); `sendFails` models `this.socket.send`
throwing.  Following the source: a zero `replyTimeout` is replaced by
`PubsInit.options.streamAckTimeout`; the call fails with `no_connection`
when not connected, no socket, or closing; otherwise the sequence counter
is pre-incremented and written into `payload.state`; after a successful
transmit, a positive timeout registers a reply handler keyed by the
correlation id, a non-positive one resolves immediately. -/
def sendStreamWebSocketPayload (o : PubsOptions) (s : PubsState) (seq : ℕ)
    (sendFails : Bool) (replyTimeout : ℤ) : PubsState × ℕ × SendOutcome :=
  let rt : ℤ := if replyTimeout = 0 then (o.streamAckTimeout : ℤ) else replyTimeout
  if s.connected = false ∨ s.socket = none ∨ s.closing = true then
    (s, seq, .noConnection)
  else
    let seq2 := seq + 1
    if sendFails then (s, seq2, .sendException)
    else if 0 < rt then
      ({ s with replyHandlers := mapSet s.replyHandlers seq2 rt }, seq2, .registeredPending seq2)
    else (s, seq2, .immediateResolve seq2)

/-- The reply-timeout callback registered by `sendStreamWebSocketPayload`
(`pubs.ts` lines 326-328): `window.setTimeout(() => { reject(new Error('timeout')); }, replyTimeout)`.
When it fires it rejects the pending promise and performs no other
mutation; in particular it does not touch `replyHandlers`.  `k` is the
correlation id whose timer fired; the returned boolean records that the
promise was rejected with `timeout`. -/
def replyTimeoutFire (s : PubsState) (k : ℕ) : PubsState × Bool :=
  (s, true)

/-- An inbound `IStreamEnvelope`, reduced to the fields the handler
inspects: the `type` tag and the `state` correlation id. -/
structure StreamMessage where
  type : String
  state : ℕ
deriving DecidableEq, Repr

/-- `Pubs.handleStreamWebSocketMessage` (`pubs.ts` lines 526-563), for a
message arriving on socket `sockId`: a non-current socket is closed and
ignored; `ack` looks up the reply handler by correlation id, and if found
deletes it, clears its timer and resolves it; `goodbye` sets the attempt
counter to 1, closes the current socket (marking `closing`) and clears
`connected`; `hello`, `event` and unknown types leave the state unchanged.
The returned boolean records whether an ack matched and resolved a
pending reply. -/
def handleStreamWebSocketMessage (s : PubsState) (sockId : ℕ) (m : StreamMessage) :
    PubsState × Bool :=
  if s.socket ≠ some sockId then (s, false)
  else if m.type = "ack" then
    match mapGet s.replyHandlers m.state with
    | some _ => ({ s with replyHandlers := mapDelete s.replyHandlers m.state }, true)
    | none => (s, false)
  else if m.type = "goodbye" then
    ({ s with reconnectAttempts := 1, closing := true, connected := false }, false)
  else (s, false)

/-- `Pubs.closeStreamWebsocket` (`pubs.ts` lines 514-519): marks `closing`
when the socket being closed is the current one. -/
def closeStreamWebsocket (s : PubsState) (sockId : ℕ) : PubsState :=
  if s.socket = some sockId then { s with closing := true } else s

/-- The settlement effect a socket callback has on the promise of the
`connectStreamWebSocket` call (and thereby on the connection gate) of the
connect attempt `a` that created its socket.  A callback can only ever
settle its own attempt's promise: the `resolve`/`reject` in its closure
belong to that attempt. -/
inductive AttemptEffect
  | resolveAttempt (a : ℕ)
  | rejectAttempt (a : ℕ)
  | noEffect
deriving DecidableEq, Repr

/-- Whether an effect settles (resolves or rejects) attempt `g`. -/
def AttemptEffect.touches : AttemptEffect → ℕ → Bool
  | .resolveAttempt a, g => a == g
  | .rejectAttempt a, g => a == g
  | .noEffect, _ => false

/-- Which reconnect call (if any) a socket callback makes. -/
inductive ReconnectCall
  | fastCall
  | backoffCall
  | noCall
deriving DecidableEq, Repr

/-- Result of one socket callback: the new instance state, the settlement
effect on its attempt's promise, and the reconnect call it makes. -/
structure HandlerResult where
  state : PubsState
  effect : AttemptEffect
  reconnect : ReconnectCall
deriving DecidableEq, Repr

/-- `socket.onopen` (`pubs.ts` lines 441-456), for the socket `sockId`
created by connect attempt `attempt`: after the timeout guard, an event
whose target is not the current socket closes that socket and returns;
otherwise `connected`/`connecting` are updated and the attempt's promise
is resolved. -/
def onopenHandler (s : PubsState) (sockId attempt : ℕ) (isTimeout : Bool) : HandlerResult :=
  if isTimeout then ⟨s, .noEffect, .noCall⟩
  else if s.socket ≠ some sockId then
    ⟨closeStreamWebsocket s sockId, .noEffect, .noCall⟩
  else
    ⟨{ s with connected := true, connecting := false }, .resolveAttempt attempt, .noCall⟩

/-- `socket.onclose` (`pubs.ts` lines 457-481): after the timeout guard, a
close from a non-current socket is ignored except that, when the instance
has no current socket, is not connecting, and a reconnector was supplied,
`reconnector(true)` is called; a close of the current socket detaches it,
clears `closing`/`connected`/`connecting` and calls `reconnector()` when
one was supplied. -/
def oncloseHandler (s : PubsState) (sockId attempt : ℕ) (hasReconnector isTimeout : Bool) :
    HandlerResult :=
  if isTimeout then ⟨s, .noEffect, .noCall⟩
  else if s.socket ≠ some sockId then
    if s.socket = none ∧ s.connecting = false ∧ hasReconnector = true then
      ⟨s, .noEffect, .fastCall⟩
    else ⟨s, .noEffect, .noCall⟩
  else
    ⟨{ s with socket := none, closing := false, connected := false, connecting := false },
      .noEffect, if hasReconnector then .backoffCall else .noCall⟩

/-- `socket.onerror` (`pubs.ts` lines 482-502): after the timeout guard,
the handler always schedules a rejection of its attempt's promise
(`setTimeout(() => { reject(event); }, 0)` runs *before* the socket
identity check); an error from a non-current socket changes no state; an
error of the current socket detaches it, clears `connected`/`connecting`
and dispatches a `websocket_error` error event. -/
def onerrorHandler (s : PubsState) (sockId attempt : ℕ) (isTimeout : Bool) : HandlerResult :=
  if isTimeout then ⟨s, .noEffect, .noCall⟩
  else if s.socket ≠ some sockId then
    ⟨s, .rejectAttempt attempt, .noCall⟩
  else
    ⟨{ s with socket := none, connected := false, connecting := false },
      .rejectAttempt attempt, .noCall⟩

/-- How the connection gate's readiness promise of the current attempt
eventually settles (resolved on socket open, rejected via `gateReject`,
or never settled). -/
inductive GateSettle
  | resolved
  | rejected
  | pending
deriving DecidableEq, Repr

/-- Whether a `sendStreamWebSocketPayload` call's promise eventually
*resolves*: an immediate resolve always does, a registered pending reply
resolves exactly when a matching ack arrives before its timer fires
(`ackInTime`), and the failure outcomes (`no_connection`, a send
exception — and a fired reply timeout) reject. -/
def sendSettlesOk : SendOutcome → Bool → Bool
  | .noConnection, _ => false
  | .sendException, _ => false
  | .registeredPending _, ackInTime => ackInTime
  | .immediateResolve _, _ => true

/-- How a `pubsub` promise settles. -/
inductive PubsubOutcome
  | rejectedNoGate
  | pending
  | resolved
deriving DecidableEq, Repr

/-- `Pubs.pubsub` (`pubs.ts` lines 346-367): builds the `{type, topics}`
payload and returns a promise that rejects immediately when
`this.gate.promise` does not exist; otherwise it chains on the gate
promise (with no rejection handler) and then on
`sendStreamWebSocketPayload` (again with no rejection handler), resolving
only when both succeed.  `gate` is how the current gate promise settles
and `sendOut`/`ackInTime` describe the send performed at gate-resolution
time.  Returns the settlement of the `pubsub` promise and whether
`sendStreamWebSocketPayload` was invoked at all. -/
def pubsub (s : PubsState) (ty : String) (topics : List String)
    (gate : GateSettle) (sendOut : SendOutcome) (ackInTime : Bool) : PubsubOutcome × Bool :=
  match s.gate with
  | none => (.rejectedNoGate, false)
  | some _ =>
    match gate with
    | .resolved =>
      if sendSettlesOk sendOut ackInTime then (.resolved, true) else (.pending, true)
    | .rejected => (.pending, false)
    | .pending => (.pending, false)

/-- `Pubs.sub` (`pubs.ts` lines 293-296). -/
def Pubs.sub (s : PubsState) (topics : List String)
    (gate : GateSettle) (sendOut : SendOutcome) (ackInTime : Bool) : PubsubOutcome × Bool :=
  pubsub s "sub" topics gate sendOut ackInTime

/-- `Pubs.unsub` (`pubs.ts` lines 342-344). -/
def Pubs.unsub (s : PubsState) (topics : List String)
    (gate : GateSettle) (sendOut : SendOutcome) (ackInTime : Bool) : PubsubOutcome × Bool :=
  pubsub s "unsub" topics gate sendOut ackInTime

/-- A process with two independent `Pubs` instances.  The module-level
`websocketSequence` counter (`pubs.ts` lines 99-104, a module `let`, not
an instance field) is a single `seq` shared by both instances. -/
structure ProcessState where
  seq : ℕ
  instA : PubsState
  instB : PubsState
deriving DecidableEq, Repr

/-- A send performed by instance A: updates A's state and the shared
module-level sequence counter. -/
def sendOnA (o : PubsOptions) (p : ProcessState) (sendFails : Bool) (replyTimeout : ℤ) :
    ProcessState × SendOutcome :=
  let r := sendStreamWebSocketPayload o p.instA p.seq sendFails replyTimeout
  ({ p with instA := r.1, seq := r.2.1 }, r.2.2)

/-- A send performed by instance B: updates B's state and the shared
module-level sequence counter. -/
def sendOnB (o : PubsOptions) (p : ProcessState) (sendFails : Bool) (replyTimeout : ℤ) :
    ProcessState × SendOutcome :=
  let r := sendStreamWebSocketPayload o p.instB p.seq sendFails replyTimeout
  ({ p with instB := r.1, seq := r.2.1 }, r.2.2)

/-- A connected instance: the state right after a successful socket open
(socket 1 attached, gate 1 established, `connected` set). -/
def connectedPubsState : PubsState :=
  { connected := true, reconnecting := true, socket := some 1, gate := some 1 }

theorem mapGet_mapDelete (m : List (ℕ × ℤ)) (k : ℕ) : mapGet (mapDelete m k) k = none := by
  induction m with
  | nil => rfl
  | cons p rest ih =>
    obtain ⟨k2, v⟩ := p
    by_cases h : k2 = k
    · simp [mapDelete, h, ih]
    · simp [mapDelete, mapGet, h, ih]

theorem mapGet_mapSet (m : List (ℕ × ℤ)) (k : ℕ) (v : ℤ) : mapGet (mapSet m k v) k = some v := by
  induction m with
  | nil => simp [mapSet, mapGet]
  | cons p rest ih =>
    obtain ⟨k2, v2⟩ := p
    by_cases h : k2 = k
    · simp [mapSet, mapGet, h]
    · simp [mapSet, mapGet, h, ih]

/-- Claim C9: calling `sub(topics)` or `unsub(topics)` before any `connect()`
call has ever run — i.e. on the constructor state, whose gate has no promise —
rejects immediately with the no-gate condition and never invokes
`sendStreamWebSocketPayload`, so nothing is transmitted on the socket. -/
theorem subUnsubBeforeConnectRejectsNoGate :
    ∀ (topics : List String) (gate : GateSettle) (sendOut : SendOutcome) (ackInTime : Bool),
      Pubs.sub initialPubsState topics gate sendOut ackInTime
          = (PubsubOutcome.rejectedNoGate, false) ∧
      Pubs.unsub initialPubsState topics gate sendOut ackInTime
          = (PubsubOutcome.rejectedNoGate, false) := by
  intro topics gate sendOut ackInTime
  exact ⟨rfl, rfl⟩

/-- Claim C10: once a connection gate exists (`gate.promise` present), the
promise returned by `pubsub` (hence by `sub`/`unsub`) never rejects: it
resolves exactly when the gate resolves and the send's promise resolves, and
whenever the gate rejects or the send fails (`no_connection`, a send
exception, or the acknowledgement timeout expiring — all the cases where
`sendSettlesOk` is false) it stays pending forever. -/
theorem pubsubWithGateNeverRejects :
    ∀ (s : PubsState) (g : ℕ) (ty : String) (topics : List String)
      (gate : GateSettle) (sendOut : SendOutcome) (ackInTime : Bool),
      s.gate = some g →
      (pubsub s ty topics gate sendOut ackInTime).1 ≠ PubsubOutcome.rejectedNoGate ∧
      ((pubsub s ty topics gate sendOut ackInTime).1 = PubsubOutcome.resolved ↔
        gate = GateSettle.resolved ∧ sendSettlesOk sendOut ackInTime = true) ∧
      ((gate = GateSettle.rejected ∨ sendSettlesOk sendOut ackInTime = false) →
        (pubsub s ty topics gate sendOut ackInTime).1 = PubsubOutcome.pending) := by
  intro s g ty topics gate sendOut ackInTime hg
  unfold pubsub
  rw [hg]
  cases gate with
  | resolved =>
    by_cases hok : sendSettlesOk sendOut ackInTime = true
    · simp [hok]
    · simp [hok]
  | rejected => simp
  | pending => simp

/-- Witness for C10 at a concrete connected state with a rejected gate. -/
theorem pubsubWithGateNeverRejectsWitness :
    (pubsub connectedPubsState "sub" ["a"] GateSettle.rejected SendOutcome.noConnection false).1
        ≠ PubsubOutcome.rejectedNoGate ∧
    ((pubsub connectedPubsState "sub" ["a"] GateSettle.rejected SendOutcome.noConnection false).1
        = PubsubOutcome.resolved ↔
      GateSettle.rejected = GateSettle.resolved ∧
        sendSettlesOk SendOutcome.noConnection false = true) ∧
    ((GateSettle.rejected = GateSettle.rejected ∨ sendSettlesOk SendOutcome.noConnection false = false) →
      (pubsub connectedPubsState "sub" ["a"] GateSettle.rejected SendOutcome.noConnection false).1
          = PubsubOutcome.pending) :=
  pubsubWithGateNeverRejects connectedPubsState 1 "sub" ["a"]
    GateSettle.rejected SendOutcome.noConnection false rfl

/-- Claim C2 (code bug): `connect()` does set `connecting := true`, but because
the source computes `this.reconnecting = (PubsInit.options.reconnectEnabled || true)`,
the `reconnecting` flag becomes `true` even when the configuration has
`reconnectEnabled = false` — the configured value is ignored. -/
theorem connectStartIgnoresReconnectEnabled :
    ((connectStart { defaultPubsOptions with reconnectEnabled := false } 1 initialPubsState).1).connecting
        = true ∧
    ((connectStart { defaultPubsOptions with reconnectEnabled := false } 1 initialPubsState).1).reconnecting
        = true :=
  ⟨rfl, rfl⟩

/-- Claim C3: a socket callback whose originating socket is not the currently
tracked one leaves the whole instance state unchanged (in particular the
`connected` and `connecting` flags) and settles no promise of the current
connect attempt's gate; the single exception is the close callback, which
makes a fast (non-backoff) reconnect call exactly when the instance has no
current socket, is not connecting, and a reconnect function was supplied. -/
theorem staleSocketCallbacksIgnored :
    ∀ (s : PubsState) (sockId attempt g : ℕ) (hasRec : Bool),
      s.socket ≠ some sockId → s.gate = some g → attempt ≠ g →
      (onopenHandler s sockId attempt false).state = s ∧
      (onopenHandler s sockId attempt false).effect.touches g = false ∧
      (oncloseHandler s sockId attempt hasRec false).state = s ∧
      (oncloseHandler s sockId attempt hasRec false).effect.touches g = false ∧
      (onerrorHandler s sockId attempt false).state = s ∧
      (onerrorHandler s sockId attempt false).effect.touches g = false ∧
      ((oncloseHandler s sockId attempt hasRec false).reconnect = ReconnectCall.fastCall ↔
        (s.socket = none ∧ s.connecting = false ∧ hasRec = true)) := by
  intro s sockId attempt g hasRec hsock hgate hne
  refine ⟨?_, ?_, ?_, ?_, ?_, ?_, ?_⟩
  · simp [onopenHandler, hsock, closeStreamWebsocket]
  · simp [onopenHandler, hsock, AttemptEffect.touches]
  · by_cases hc : s.socket = none ∧ s.connecting = false ∧ hasRec = true
    · simp [oncloseHandler, hsock, hc]
    · simp [oncloseHandler, hsock, hc]
  · by_cases hc : s.socket = none ∧ s.connecting = false ∧ hasRec = true
    · simp [oncloseHandler, hsock, hc, AttemptEffect.touches]
    · simp [oncloseHandler, hsock, hc, AttemptEffect.touches]
  · simp [onerrorHandler, hsock]
  · simp [onerrorHandler, hsock, AttemptEffect.touches, hne]
  · by_cases hc : s.socket = none ∧ s.connecting = false ∧ hasRec = true
    · simp [oncloseHandler, hsock, hc]
    · simp [oncloseHandler, hsock, hc]

/-- A state with socket 2 and gate 7 current, used to witness C3 with stale
socket 1 of stale attempt 3. -/
def staleScenarioState : PubsState :=
  { connected := true, socket := some 2, gate := some 7 }

/-- Witness for C3 at a concrete state: socket 2 is current, callbacks arrive
from stale socket 1 belonging to attempt 3, current gate is 7. -/
theorem staleSocketCallbacksIgnoredWitness :
    (onopenHandler staleScenarioState 1 3 false).state = staleScenarioState ∧
    (onopenHandler staleScenarioState 1 3 false).effect.touches 7 = false ∧
    (oncloseHandler staleScenarioState 1 3 true false).state = staleScenarioState ∧
    (oncloseHandler staleScenarioState 1 3 true false).effect.touches 7 = false ∧
    (onerrorHandler staleScenarioState 1 3 false).state = staleScenarioState ∧
    (onerrorHandler staleScenarioState 1 3 false).effect.touches 7 = false ∧
    ((oncloseHandler staleScenarioState 1 3 true false).reconnect = ReconnectCall.fastCall ↔
      (staleScenarioState.socket = none ∧ staleScenarioState.connecting = false ∧ true = true)) :=
  staleSocketCallbacksIgnored staleScenarioState 1 3 7 true (by decide) rfl (by decide)

/-- Claim C1 (amended): a handshake response carrying error code
`http_error_403` and no stream URL, processed while `reconnecting` is set,
dispatches exactly one Error notification, clears `reconnecting` for the
remainder of this connect attempt, and the `reconnector()` call that follows
is then a no-op (it arms no retry timer).  The transition is not permanent:
a subsequent `connect()` call sets `reconnecting` back to `true` (see the
counterexample). -/
theorem forbiddenHandshakeDisablesReconnectingForAttempt :
    ∀ (o : PubsOptions) (s : PubsState) (e : PubsError) (jitter : ℕ) (fast : Bool),
      s.reconnecting = true → e.code = "http_error_403" →
      ((handleConnectResponse s { streamUrl := "", error := some e }).2.1.filter
          PubsEvent.isError).length = 1 ∧
      (handleConnectResponse s { streamUrl := "", error := some e }).1.reconnecting = false ∧
      (handleConnectResponse s { streamUrl := "", error := some e }).2.2
          = ConnectResultAction.reconnectorCalled ∧
      reconnectorStep o fast jitter (handleConnectResponse s { streamUrl := "", error := some e }).1
          = { (handleConnectResponse s { streamUrl := "", error := some e }).1 with
              reconnectorTimer := none } := by
  intro o s e jitter fast hrec hcode
  simp [handleConnectResponse, hrec, hcode, reconnectorStep, stateChangedEvent,
    PubsEvent.isError]

/-- Witness for C1's amended theorem at a concrete reconnecting state and the
concrete forbidden response. -/
theorem forbiddenHandshakeDisablesReconnectingForAttemptWitness :
    ((handleConnectResponse { reconnecting := true }
        { streamUrl := "", error := some { code := "http_error_403", msg := "forbidden" } }).2.1.filter
        PubsEvent.isError).length = 1 ∧
    (handleConnectResponse { reconnecting := true }
        { streamUrl := "", error := some { code := "http_error_403", msg := "forbidden" } }).1.reconnecting
        = false ∧
    (handleConnectResponse { reconnecting := true }
        { streamUrl := "", error := some { code := "http_error_403", msg := "forbidden" } }).2.2
        = ConnectResultAction.reconnectorCalled ∧
    reconnectorStep defaultPubsOptions false 0
        (handleConnectResponse { reconnecting := true }
          { streamUrl := "", error := some { code := "http_error_403", msg := "forbidden" } }).1
      = { (handleConnectResponse { reconnecting := true }
            { streamUrl := "", error := some { code := "http_error_403", msg := "forbidden" } }).1 with
          reconnectorTimer := none } :=
  forbiddenHandshakeDisablesReconnectingForAttempt defaultPubsOptions { reconnecting := true }
    { code := "http_error_403", msg := "forbidden" } 0 false rfl rfl

/-- The state left behind by a forbidden handshake handled while
reconnecting: `reconnecting` has been cleared. -/
def forbidden403State : PubsState :=
  (handleConnectResponse { reconnecting := true }
    { streamUrl := "", error := some { code := "http_error_403", msg := "forbidden" } }).1

/-- Claim C1 (counterexample): the forbidden transition is not one-way.  After
the forbidden handshake has cleared `reconnecting`, a subsequent `connect()`
call sets it back to `true` without any explicit re-enabling, and a following
failed handshake again reaches `reconnector()` which arms a retry timer — so
the second `connect()` does retry automatically. -/
theorem forbiddenHandshakeNotPermanentCounterexample :
    forbidden403State.reconnecting = false ∧
    (connectStart defaultPubsOptions 2 forbidden403State).1.reconnecting = true ∧
    (handleConnectResponse (connectStart defaultPubsOptions 2 forbidden403State).1
        { streamUrl := "", error := some { code := "request_failed", msg := "" } }).2.2
      = ConnectResultAction.reconnectorCalled ∧
    (reconnectorStep defaultPubsOptions false 0
        (handleConnectResponse (connectStart defaultPubsOptions 2 forbidden403State).1
          { streamUrl := "", error := some { code := "request_failed", msg := "" } }).1).reconnectorTimer
      ≠ none := by
  refine ⟨rfl, rfl, rfl, ?_⟩
  simp [forbidden403State, handleConnectResponse, connectStart, reconnectorStep,
    reconnectDelay, jsTrunc, stateChangedEvent]

/-- Claim C7 (amended): the `reconnecting` flag is checked when the retry is
*scheduled*, not when the timer fires: `reconnectorStep` with the flag cleared
is a no-op that clears the previous timer and arms none; a scheduling call
never lets the previous timer survive (its result does not depend on the
previously armed timer); and once a timer has been armed, its firing invokes
`connect()` unconditionally — there is no flag check at fire time. -/
theorem reconnectorChecksFlagAtScheduleTime :
    ∀ (o : PubsOptions) (fast : Bool) (jitter : ℕ) (s : PubsState) (t : Option ℤ) (gid : ℕ),
      (s.reconnecting = false →
        reconnectorStep o fast jitter s = { s with reconnectorTimer := none }) ∧
      reconnectorStep o fast jitter { s with reconnectorTimer := t }
          = reconnectorStep o fast jitter { s with reconnectorTimer := none } ∧
      (reconnectorTimerFire o gid s).2 = true := by
  intro o fast jitter s t gid
  refine ⟨?_, rfl, rfl⟩
  intro h
  simp [reconnectorStep, h]

/-- Witness for C7's amended theorem: on the constructor state (flag down) the
scheduler is a no-op, and the fire callback always performs an attempt. -/
theorem reconnectorChecksFlagAtScheduleTimeWitness :
    reconnectorStep defaultPubsOptions false 0 initialPubsState
        = { initialPubsState with reconnectorTimer := none } ∧
    (reconnectorTimerFire defaultPubsOptions 1 initialPubsState).2 = true :=
  ⟨(reconnectorChecksFlagAtScheduleTime defaultPubsOptions false 0 initialPubsState (some 5) 1).1 rfl,
   (reconnectorChecksFlagAtScheduleTime defaultPubsOptions false 0 initialPubsState (some 5) 1).2.2⟩

/-- A state in which a non-fast retry has just been scheduled while
`reconnecting` was still set: a live retry timer is armed. -/
def scheduledRetryState : PubsState :=
  reconnectorStep defaultPubsOptions false 0 { reconnecting := true }

/-- Claim C7 (counterexample): clear the `reconnecting` flag after the retry
timer was armed but before it fires; the timer still fires a full connection
attempt (`connect()` runs, setting `connecting`), contrary to the claim that
the flag is checked at fire time and the retry then performs no attempt. -/
theorem retryFiresAfterFlagClearedCounterexample :
    scheduledRetryState.reconnectorTimer ≠ none ∧
    ({ scheduledRetryState with reconnecting := false }).reconnecting = false ∧
    (reconnectorTimerFire defaultPubsOptions 2
        { scheduledRetryState with reconnecting := false }).2 = true ∧
    (reconnectorTimerFire defaultPubsOptions 2
        { scheduledRetryState with reconnecting := false }).1.connecting = true := by
  refine ⟨?_, rfl, rfl, rfl⟩
  simp [scheduledRetryState, reconnectorStep, reconnectDelay, jsTrunc]

/-- Claim C4 (amended): when `send` is called with `timeoutMs = 0`, the default
acknowledgement timeout `streamAckTimeout` is applied; since it is positive, a
pending-reply entry keyed by the fresh correlation id is registered and the
call waits for the acknowledgement (or its timeout) — it does *not* settle at
transmission time.  An immediate settle at transmission happens exactly when
the effective timeout is non-positive, i.e. for a negative requested timeout. -/
theorem sendZeroTimeoutRegistersAckWait :
    ∀ (o : PubsOptions) (s : PubsState) (seq k : ℕ),
      s.connected = true → s.socket = some k → s.closing = false →
      0 < o.streamAckTimeout →
      (sendStreamWebSocketPayload o s seq false 0).2.2 = SendOutcome.registeredPending (seq + 1) ∧
      mapGet (sendStreamWebSocketPayload o s seq false 0).1.replyHandlers (seq + 1)
          = some (o.streamAckTimeout : ℤ) ∧
      (∀ rt : ℤ, rt < 0 →
        (sendStreamWebSocketPayload o s seq false rt).2.2
            = SendOutcome.immediateResolve (seq + 1)) := by
  intro o s seq k hconn hsock hclos hack
  have hpos : (0 : ℤ) < (o.streamAckTimeout : ℤ) := by exact_mod_cast hack
  refine ⟨?_, ?_, ?_⟩
  · simp [sendStreamWebSocketPayload, hconn, hsock, hclos, hpos]
  · simp [sendStreamWebSocketPayload, hconn, hsock, hclos, hpos, mapGet_mapSet]
  · intro rt hrt
    have h0 : rt ≠ 0 := by omega
    have hnp : ¬ (0 : ℤ) < rt := by omega
    simp [sendStreamWebSocketPayload, hconn, hsock, hclos, h0, hnp]

/-- Witness for C4's amended theorem at the concrete connected state. -/
theorem sendZeroTimeoutRegistersAckWaitWitness :
    (sendStreamWebSocketPayload defaultPubsOptions connectedPubsState 0 false 0).2.2
        = SendOutcome.registeredPending 1 ∧
    mapGet (sendStreamWebSocketPayload defaultPubsOptions connectedPubsState 0 false 0).1.replyHandlers 1
        = some ((defaultPubsOptions.streamAckTimeout : ℤ)) ∧
    (sendStreamWebSocketPayload defaultPubsOptions connectedPubsState 0 false (-1)).2.2
        = SendOutcome.immediateResolve 1 :=
  ⟨(sendZeroTimeoutRegistersAckWait defaultPubsOptions connectedPubsState 0 1 rfl rfl rfl
      (by decide)).1,
   (sendZeroTimeoutRegistersAckWait defaultPubsOptions connectedPubsState 0 1 rfl rfl rfl
      (by decide)).2.1,
   (sendZeroTimeoutRegistersAckWait defaultPubsOptions connectedPubsState 0 1 rfl rfl rfl
      (by decide)).2.2 (-1) (by norm_num)⟩

/-- Claim C4 (counterexample): at the concrete connected state, a send with
`timeoutMs = 0` and no reply-wait requested registers a pending-reply entry
(correlation id 1, timeout 20000 ms) and waits — its outcome is not the
immediate transmission-time settle the claim describes. -/
theorem sendZeroTimeoutCounterexample :
    (sendStreamWebSocketPayload defaultPubsOptions connectedPubsState 0 false 0).2.2
        = SendOutcome.registeredPending 1 ∧
    (sendStreamWebSocketPayload defaultPubsOptions connectedPubsState 0 false 0).2.2
        ≠ SendOutcome.immediateResolve 1 ∧
    (sendStreamWebSocketPayload defaultPubsOptions connectedPubsState 0 false 0).1.replyHandlers
        = [(1, 20000)] := by
  refine ⟨rfl, ?_, rfl⟩
  decide

/-- Claim C5 (amended): a pending-reply entry is removed only by a matching
acknowledgement: the `ack` branch deletes the entry (so a second identical
acknowledgement no longer matches — removal happens at most once) and resolves
it; the reply-timeout callback rejects the pending promise but performs no
removal, so after the timeout fires the entry is still present in the table. -/
theorem pendingReplyRemovedOnlyByAck :
    ∀ (s : PubsState) (sockId k : ℕ) (v : ℤ),
      s.socket = some sockId → mapGet s.replyHandlers k = some v →
      (handleStreamWebSocketMessage s sockId { type := "ack", state := k }).2 = true ∧
      mapGet (handleStreamWebSocketMessage s sockId { type := "ack", state := k }).1.replyHandlers k
          = none ∧
      (handleStreamWebSocketMessage
          (handleStreamWebSocketMessage s sockId { type := "ack", state := k }).1 sockId
          { type := "ack", state := k }).2 = false ∧
      (replyTimeoutFire s k).1 = s := by
  intro s sockId k v hsock hget
  refine ⟨?_, ?_, ?_, rfl⟩
  · simp [handleStreamWebSocketMessage, hsock, hget]
  · simp [handleStreamWebSocketMessage, hsock, hget, mapGet_mapDelete]
  · simp [handleStreamWebSocketMessage, hsock, hget, mapGet_mapDelete]

/-- A connected state with one registered pending reply (correlation id 1,
timeout 20000), as produced by a zero-timeout send. -/
def pendingReplyState : PubsState :=
  (sendStreamWebSocketPayload defaultPubsOptions connectedPubsState 0 false 0).1

/-- Witness for C5's amended theorem at the concrete pending-reply state. -/
theorem pendingReplyRemovedOnlyByAckWitness :
    (handleStreamWebSocketMessage pendingReplyState 1 { type := "ack", state := 1 }).2 = true ∧
    mapGet (handleStreamWebSocketMessage pendingReplyState 1
        { type := "ack", state := 1 }).1.replyHandlers 1 = none ∧
    (handleStreamWebSocketMessage
        (handleStreamWebSocketMessage pendingReplyState 1 { type := "ack", state := 1 }).1 1
        { type := "ack", state := 1 }).2 = false ∧
    (replyTimeoutFire pendingReplyState 1).1 = pendingReplyState :=
  pendingReplyRemovedOnlyByAck pendingReplyState 1 1 20000 rfl rfl

/-- Claim C5 (counterexample): register a pending reply (correlation id 1) via
a zero-timeout send, then let its reply timeout fire; the entry is still
present in the table afterwards, contrary to the claim that the entry is no
longer present after the timeout fires. -/
theorem timeoutLeavesPendingEntryCounterexample :
    mapGet ((replyTimeoutFire
        (sendStreamWebSocketPayload defaultPubsOptions connectedPubsState 0 false 0).1 1).1).replyHandlers 1
      = some 20000 := by
  decide

/-- A process holding two connected `Pubs` instances and the module-level
sequence counter at its initial value 0. -/
def twoInstanceProcess : ProcessState :=
  { seq := 0, instA := connectedPubsState, instB := connectedPubsState }

/-- Claim C8 (counterexample): the correlation counter is not instance-owned.
With two connected instances, B's first send is assigned correlation id 1 when
A has not sent, but id 2 after a single send on A — sending on one instance
changes the correlation-id sequence observed by the other. -/
theorem sharedSequenceCounterexample :
    (sendOnB defaultPubsOptions twoInstanceProcess false 0).2
        = SendOutcome.registeredPending 1 ∧
    (sendOnB defaultPubsOptions (sendOnA defaultPubsOptions twoInstanceProcess false 0).1 false 0).2
        = SendOutcome.registeredPending 2 ∧
    (sendOnB defaultPubsOptions (sendOnA defaultPubsOptions twoInstanceProcess false 0).1 false 0).2
        ≠ (sendOnB defaultPubsOptions twoInstanceProcess false 0).2 := by
  refine ⟨rfl, rfl, ?_⟩
  decide

/-- Claim C8 (amended): the outbound correlation counter is module-level state
shared by every instance in the process: a send on instance A leaves B's
instance state untouched yet advances the single shared counter; the counter
never decreases, and every send that assigns an id assigns `seq + 1` and
leaves the counter at `seq + 1` — hence correlation ids are strictly
increasing across successful sends process-wide, and in particular
monotonically increasing within any one instance. -/
theorem websocketSequenceSharedAndMonotone :
    ∀ (o : PubsOptions) (p : ProcessState) (s : PubsState) (seq k : ℕ)
      (sendFails : Bool) (rt : ℤ),
      (sendOnA o p sendFails rt).1.instB = p.instB ∧
      (sendOnA o p sendFails rt).1.seq
          = (sendStreamWebSocketPayload o p.instA p.seq sendFails rt).2.1 ∧
      seq ≤ (sendStreamWebSocketPayload o s seq sendFails rt).2.1 ∧
      ((sendStreamWebSocketPayload o s seq sendFails rt).2.2.assignedId = some k →
        k = seq + 1 ∧ (sendStreamWebSocketPayload o s seq sendFails rt).2.1 = seq + 1) := by
  intro o p s seq k sendFails rt
  refine ⟨rfl, rfl, ?_, ?_⟩
  · unfold sendStreamWebSocketPayload
    dsimp only
    split_ifs <;> dsimp only <;> omega
  · intro h
    unfold sendStreamWebSocketPayload at h ⊢
    dsimp only at h ⊢
    split_ifs at h ⊢ <;>
      simp [SendOutcome.assignedId] at h ⊢ <;>
      omega

/-- Witness for C8's amended theorem: two concrete instances, a successful
send on B assigned id 1 from counter 0. -/
theorem websocketSequenceSharedAndMonotoneWitness :
    (sendOnA defaultPubsOptions twoInstanceProcess false 0).1.instB
        = twoInstanceProcess.instB ∧
    (sendOnA defaultPubsOptions twoInstanceProcess false 0).1.seq
        = (sendStreamWebSocketPayload defaultPubsOptions twoInstanceProcess.instA
            twoInstanceProcess.seq false 0).2.1 ∧
    0 ≤ (sendStreamWebSocketPayload defaultPubsOptions connectedPubsState 0 false 0).2.1 ∧
    (1 = 0 + 1 ∧
      (sendStreamWebSocketPayload defaultPubsOptions connectedPubsState 0 false 0).2.1 = 0 + 1) :=
  ⟨(websocketSequenceSharedAndMonotone defaultPubsOptions twoInstanceProcess connectedPubsState
      0 1 false 0).1,
   (websocketSequenceSharedAndMonotone defaultPubsOptions twoInstanceProcess connectedPubsState
      0 1 false 0).2.1,
   (websocketSequenceSharedAndMonotone defaultPubsOptions twoInstanceProcess connectedPubsState
      0 1 false 0).2.2.1,
   (websocketSequenceSharedAndMonotone defaultPubsOptions twoInstanceProcess connectedPubsState
      0 1 false 0).2.2.2 (by decide)⟩

theorem jsTrunc_two_pow (n : ℕ) : jsTrunc ((2 : ℚ) ^ n) = 2 ^ n := by
  unfold jsTrunc
  have hnn : ¬ ((2 : ℚ) ^ n < 0) := by push_neg; positivity
  rw [if_neg hnn]
  have h : ((2 : ℚ)) ^ n = (((2 ^ n : ℤ)) : ℚ) := by push_cast; ring
  rw [h, Int.floor_intCast]

/-- The configuration of claim C6's particular cases: reconnect factor 2 with
all other values at their defaults (base 1000 ms, max 30000 ms, spreader
500 ms). -/
def claimC6Options : PubsOptions := { reconnectFactor := 2 }

/-- Claim C6 (counterexample): with the *default* configuration
(factor 3/2, base 1000 ms, max 30000 ms) at attempt count 1 and jitter 0, the
code computes `1000 · trunc((3/2)^1) = 1000` ms while the claim's formula
`base · factor^n` capped gives 1500 ms — the computed delay does not equal
the claimed formula because the source truncates the power. -/
theorem reconnectDelayTruncCounterexample :
    ((reconnectDelay defaultPubsOptions 1 0 false : ℤ) : ℚ)
        ≠ specReconnectDelay defaultPubsOptions 1 0 := by
  have h1 : reconnectDelay defaultPubsOptions 1 0 false = 1000 := by
    simp [reconnectDelay, defaultPubsOptions, jsTrunc]
    norm_num
  have h2 : specReconnectDelay defaultPubsOptions 1 0 = 1500 := by
    simp [specReconnectDelay, defaultPubsOptions]
    norm_num
  rw [h1, h2]
  norm_num

/-- Claim C6 (amended): the non-fast delay is
`min(base · trunc(factor^attempts), max) + jitter`; whenever `factor^attempts`
is an integer the truncation vanishes and this equals the spec formula
`min(base · factor^attempts, max) + jitter`; in particular, for the claim's
configuration (factor 2, base 1000 ms, max 30000 ms, spreader 500 ms) and
attempts = 3 the delay lies in [8000, 8500) ms, and for every attempt count
`n ≥ 5` — i.e. whenever `base · 2^n` exceeds the cap — it lies in
[30000, 30500) ms. -/
theorem reconnectDelayCorrected :
    (∀ jitter : ℕ, jitter < 500 →
        8000 ≤ reconnectDelay claimC6Options 3 jitter false ∧
        reconnectDelay claimC6Options 3 jitter false < 8500) ∧
    (∀ (n jitter : ℕ), 5 ≤ n → jitter < 500 →
        30000 ≤ reconnectDelay claimC6Options n jitter false ∧
        reconnectDelay claimC6Options n jitter false < 30500) ∧
    (∀ (o : PubsOptions) (n jitter : ℕ),
        (o.reconnectFactor ^ n : ℚ) = ((jsTrunc (o.reconnectFactor ^ n) : ℤ) : ℚ) →
        ((reconnectDelay o n jitter false : ℤ) : ℚ) = specReconnectDelay o n jitter) := by
  refine ⟨?_, ?_, ?_⟩
  · intro jitter hj
    have h : reconnectDelay claimC6Options 3 jitter false = 8000 + (jitter : ℤ) := by
      simp [reconnectDelay, claimC6Options, jsTrunc_two_pow]
    rw [h]
    omega
  · intro n jitter hn hj
    have hpow : (2 : ℤ) ^ 5 ≤ 2 ^ n := pow_le_pow_right₀ (by norm_num) hn
    have hgt : (30000 : ℤ) < 1000 * 2 ^ n := by nlinarith
    have h : reconnectDelay claimC6Options n jitter false = 30000 + (jitter : ℤ) := by
      simp [reconnectDelay, claimC6Options, jsTrunc_two_pow, hgt]
    rw [h]
    omega
  · intro o n jitter hint
    simp only [reconnectDelay, specReconnectDelay]
    set k : ℤ := jsTrunc (o.reconnectFactor ^ n) with hk
    rw [hint]
    rcases le_or_lt ((o.reconnectInterval : ℤ) * k) (o.maxReconnectInterval : ℤ) with hle | hlt
    · rw [if_neg (not_lt.mpr hle), min_eq_left (by exact_mod_cast hle)]
      push_cast
      ring
    · rw [if_pos hlt, min_eq_right (by exact_mod_cast hlt.le)]
      push_cast
      ring

/-- Witness for C6's amended theorem: attempts 3 and 5 with zero jitter, and
the spec-formula agreement at the claim's integral factor 2. -/
theorem reconnectDelayCorrectedWitness :
    (8000 ≤ reconnectDelay claimC6Options 3 0 false ∧
      reconnectDelay claimC6Options 3 0 false < 8500) ∧
    (30000 ≤ reconnectDelay claimC6Options 5 0 false ∧
      reconnectDelay claimC6Options 5 0 false < 30500) ∧
    ((reconnectDelay claimC6Options 3 1 false : ℤ) : ℚ)
        = specReconnectDelay claimC6Options 3 1 :=
  ⟨reconnectDelayCorrected.1 0 (by norm_num),
   reconnectDelayCorrected.2.1 5 0 (by norm_num) (by norm_num),
   reconnectDelayCorrected.2.2 claimC6Options 3 1
     (by norm_num [claimC6Options, jsTrunc])⟩
